import Mathlib

/-!
# Shallow embedding of the SHMEMSpace allocator
(src/src/SHMEMSPACE/Kokkos_SHMEMSpace.cpp)

Addresses are naturals; the null pointer is 0.  The symmetric heap is
modelled by a bump allocator (`nextAddr`), the process-wide record
registry by a map from record ids to records, and intrusive
allocation headers by a map from the header address to the header
contents.  Profiling is a boolean flag plus an event trace.
Fatal paths (Kokkos::abort, throw_runtime_exception) are modelled by
`Except.error`.
-/

namespace KokkosSHMEM

/-- Modelled from the spec: the allocation-mode enumerator
(declared outside src); `Symmetric` "is the only supported value at
present".  The mode itself is an `int` in the source. -/
def Symmetric : Nat := 0

/-- `Kokkos::Experimental::SHMEMSpace`: `allocation_mode` (int) and
`extent` (int64_t) per the setters in the source; default-constructed
with `Symmetric` mode (line 55). -/
structure SHMEMSpace where
  allocation_mode : Nat := Symmetric
  extent : Int := 0
deriving DecidableEq, Repr

/-- Modelled from the spec: `SHMEMSpace::name()` (declared outside src),
the "identity string for profiling/reporting". -/
def SHMEMSpace.spaceName : String := "SHMEMSpace"

/-- Modelled from the spec: the size of `SharedAllocationHeader`
(declared outside src) — a "fixed-size metadata block", "fixed, known
offset" before the user region. -/
def sizeofSharedAllocationHeader : Nat := 128

/-- Modelled from the spec: `SharedAllocationHeader::maximum_label_length`
(declared outside src) — the "fixed-capacity label buffer (bounded
length, e.g. 64 bytes)". -/
def maximum_label_length : Nat := 64

/-- Modelled from the spec: `SharedAllocationHeader` (declared outside
src) — "back-reference to its owning Record (type-erased pointer)" and
the fixed-capacity label buffer. -/
structure Header where
  m_record : Nat
  m_label : List Char
deriving DecidableEq, Repr

/-- Modelled from the spec: the base `SharedAllocationRecord<void,void>`
state (declared outside src) — owning space, pointer to the combined
(header+data) block, total block size, reference count. -/
structure Record where
  m_space : SHMEMSpace
  m_alloc_ptr : Nat
  m_alloc_size : Nat
  m_count : Nat
deriving DecidableEq, Repr

/-- Profiling collaborator events
(`Kokkos::Profiling::allocateData` / `deallocateData`). -/
inductive ProfEvent where
  | allocEvt (space : String) (label : List Char) (addr size : Nat)
  | deallocEvt (space : String) (label : List Char) (addr size : Nat)
deriving DecidableEq, Repr

/-- The whole allocator state: byte memory of the symmetric heap, the
headers stored in it, the live-record registry, fresh-address and
fresh-record-id counters for the bump model of `shmem_malloc` and
`new`, the profiling flag, the emitted profiling events, and the list
of blocks passed to `shmem_free`. -/
structure AllocState where
  mem : Nat → Nat
  headers : Nat → Option Header
  records : Nat → Option Record
  nextAddr : Nat
  nextRec : Nat
  profiling : Bool
  events : List ProfEvent
  freed : List Nat

/-- A concrete pristine state used to exercise the definitions. -/
def initState : AllocState :=
  { mem := fun _ => 0, headers := fun _ => none, records := fun _ => none,
    nextAddr := 0, nextRec := 0, profiling := true, events := [], freed := [] }

/-- Reading a header at an address; an address holding no header yields
an unspecified value, modelled by this default (garbage) header. -/
def garbageHeader : Header := { m_record := 0, m_label := [] }

/-- Dereferencing a record pointer that is not a live record yields an
unspecified value, modelled by this default (garbage) record. -/
def garbageRecord : Record :=
  { m_space := {}, m_alloc_ptr := 0, m_alloc_size := 0, m_count := 0 }

/-- Modelled from the spec: `SharedAllocationHeader::get_header`
(declared outside src) — "header_of(user_ptr) = user_ptr - sizeof(Header)". -/
def get_header (alloc_ptr : Nat) : Nat := alloc_ptr - sizeofSharedAllocationHeader

/-- Modelled from the spec: `RecordBase::data()` (declared outside src) —
the user-data pointer, "header-relative offset applied". -/
def Record.data (r : Record) : Nat := r.m_alloc_ptr + sizeofSharedAllocationHeader

/-- Modelled from the spec: `RecordBase::size()` (declared outside src) —
the user-requested size, "not including header overhead". -/
def Record.size (r : Record) : Nat := r.m_alloc_size - sizeofSharedAllocationHeader

/-- `SHMEMSpace::allocate` (source lines 64-84).  `ptr` starts null; a
nonzero size either takes the `Symmetric` branch (returning the
symmetric-heap collaborator's result, passed in as
`shmem_malloc_result`) or hits `Kokkos::abort`.  A zero size skips the
whole block and returns the null `ptr`. -/
def SHMEMSpace.allocate (sp : SHMEMSpace) (arg_alloc_size : Nat)
    (shmem_malloc_result : Nat) : Except String Nat :=
  if arg_alloc_size ≠ 0 then
    if sp.allocation_mode = Symmetric then
      Except.ok shmem_malloc_result
    else
      Except.error "SHMEMSpace only supports symmetric allocation policy."
  else
    Except.ok 0

/-- The bump model of `shmem_malloc`: a fresh non-null block address,
disjoint from everything previously handed out. -/
def shmem_malloc (st : AllocState) (size : Nat) : Nat × AllocState :=
  (st.nextAddr + 1, { st with nextAddr := st.nextAddr + 1 + size })

/-- `memcpy(dst, src, n)` on byte memory: the `n` destination bytes
take the corresponding source bytes, every other address is untouched
(the source bytes are read from the pre-copy memory, which coincides
with `memcpy` whenever the regions do not overlap). -/
def memcpyMem (m : Nat → Nat) (dst src n : Nat) : Nat → Nat :=
  fun a => if dst ≤ a ∧ a < dst + n then m (src + (a - dst)) else m a

/-- `DeepCopy<HostSpace, SHMEMSpace, RemoteSpaceSpecializeTag>`
(source lines 96-99): `memcpy(dst, src, n)`. -/
def DeepCopy_HostSpace_SHMEMSpace (m : Nat → Nat) (dst src n : Nat) : Nat → Nat :=
  memcpyMem m dst src n

/-- `DeepCopy<SHMEMSpace, HostSpace, RemoteSpaceSpecializeTag>`
(source lines 101-104): `memcpy(dst, src, n)`. -/
def DeepCopy_SHMEMSpace_HostSpace (m : Nat → Nat) (dst src n : Nat) : Nat → Nat :=
  memcpyMem m dst src n

/-- Modelled from the spec: the error raised by the base
`SharedAllocationRecord<void,void>` constructor (declared outside src)
when handed a null block pointer — the "allocation-failure condition"
that is "propagated, not swallowed". -/
def allocationFailureMsg : String :=
  "Kokkos::Impl::SharedAllocationRecord ERROR : allocate"

/-- Modelled from the spec: the base `SharedAllocationRecord<void,void>`
constructor (declared outside src).  It "fails with an
allocation-failure condition if the space returns null for a nonzero
requested size" and otherwise registers a fresh Record (reference
count 0) holding the block pointer and total block size. -/
def RecordBase.ctor (st : AllocState) (sp : SHMEMSpace) (alloc_ptr : Nat)
    (alloc_size : Nat) : Except String (Nat × AllocState) :=
  if alloc_ptr = 0 then
    Except.error allocationFailureMsg
  else
    let rid := st.nextRec
    let newRecords : Nat → Option Record := fun i =>
      if i = rid then
        some ({ m_space := sp, m_alloc_ptr := alloc_ptr,
                m_alloc_size := alloc_size, m_count := 0 } : Record)
      else st.records i
    Except.ok (rid, { st with records := newRecords, nextRec := st.nextRec + 1 })

/-- The `SharedAllocationRecord<SHMEMSpace,void>` constructor (source
lines 136-165), parametrised by the raw result of the space's
`shmem_malloc` call so that the null-allocation path is expressible.
It requests `sizeof(SharedAllocationHeader) + arg_alloc_size` bytes
from the space, runs the base constructor on the result, emits the
profiling `allocateData` event when profiling is active, then fills in
the header: the back-reference to the new record and the label,
truncated by `strncpy` to `maximum_label_length`. -/
def SharedAllocationRecord.ctorWith (st : AllocState) (arg_space : SHMEMSpace)
    (arg_label : List Char) (arg_alloc_size : Nat) (shmem_result : Nat) :
    Except String (Nat × AllocState) := do
  let blkSize := sizeofSharedAllocationHeader + arg_alloc_size
  let blkPtr ← arg_space.allocate blkSize shmem_result
  let (rid, st1) ← RecordBase.ctor st arg_space blkPtr blkSize
  let st2 :=
    if st1.profiling then
      { st1 with events := st1.events ++
          [ProfEvent.allocEvt SHMEMSpace.spaceName arg_label
            (blkPtr + sizeofSharedAllocationHeader) arg_alloc_size] }
    else st1
  let newHeaders : Nat → Option Header := fun a =>
    if a = blkPtr then
      some ({ m_record := rid,
              m_label := arg_label.take maximum_label_length } : Header)
    else st2.headers a
  let st3 := { st2 with headers := newHeaders }
  Except.ok (rid, st3)

/-- Modelled from the spec: the static factory
`SharedAllocationRecord::allocate(space, label, size)` (declared
outside src) — "asks space.allocate(block_size)" for a new record; the
block comes from the in-model `shmem_malloc` bump allocator. -/
def SharedAllocationRecord.allocateRecord (st : AllocState)
    (arg_space : SHMEMSpace) (arg_label : List Char) (arg_alloc_size : Nat) :
    Except String (Nat × AllocState) :=
  let (p, st') := shmem_malloc st (sizeofSharedAllocationHeader + arg_alloc_size)
  SharedAllocationRecord.ctorWith st' arg_space arg_label arg_alloc_size p

/-- The `~SharedAllocationRecord` destructor (source lines 120-134),
together with the surrounding `delete` (source lines 115-118) and
`SHMEMSpace::deallocate` → `shmem_free` (source lines 86-88).  When
profiling is active it emits `deallocateData` — passing the `m_label`
of a freshly default-constructed local `SharedAllocationHeader`
(modelled as `garbageHeader`, standing for the uninitialized buffer:
the source never copies the allocation's real header into it), plus
`data()` and `size()` — and then releases the full block: the record
leaves the registry, the header stored in the freed block is gone, and
the block pointer is recorded as passed to `shmem_free`. -/
def SharedAllocationRecord.dtor (st : AllocState) (rid : Nat) : AllocState :=
  let r := (st.records rid).getD garbageRecord
  let st1 :=
    if st.profiling then
      { st with events := st.events ++
          [ProfEvent.deallocEvt SHMEMSpace.spaceName garbageHeader.m_label
            r.data r.size] }
    else st
  let newRecords : Nat → Option Record := fun i =>
    if i = rid then none else st1.records i
  let newHeaders : Nat → Option Header := fun a =>
    if a = r.m_alloc_ptr then none else st1.headers a
  { st1 with records := newRecords, headers := newHeaders,
             freed := st1.freed ++ [r.m_alloc_ptr] }

/-- Modelled from the spec: `RecordBase::increment` (declared outside
src) — bumps the record's reference count. -/
def RecordBase.increment (st : AllocState) (rid : Nat) : AllocState :=
  let newRecords : Nat → Option Record := fun i =>
    if i = rid then
      (st.records i).map (fun r => { r with m_count := r.m_count + 1 })
    else st.records i
  { st with records := newRecords }

/-- Modelled from the spec: `RecordBase::decrement` (declared outside
src) — "count transitions to 0 exactly once, at which point the Record
is unlinked from the registry and its memory released"; a decrement
from count 1 destroys the record, any other decrement just lowers the
count. -/
def RecordBase.decrement (st : AllocState) (rid : Nat) : AllocState :=
  match st.records rid with
  | none => st
  | some r =>
    if r.m_count = 1 then
      SharedAllocationRecord.dtor st rid
    else
      let newRecords : Nat → Option Record := fun i =>
        if i = rid then some ({ r with m_count := r.m_count - 1 })
        else st.records i
      { st with records := newRecords }

/-- The diagnostic raised by `get_record` (source lines 225-227). -/
def getRecordErrorMsg : String :=
  "Kokkos::Impl::SharedAllocationRecord< Kokkos::Experimental::SHMEMSpace , void >::get_record ERROR"

/-- `get_record` (source lines 212-231): for a non-null pointer the
header address is computed at the fixed offset before the pointer, the
back-reference stored there is read, and the recovered record's stored
allocation pointer is compared with the computed header address; a
null pointer or a mismatch raises the diagnostic error.  Reads through
unmapped addresses or dangling back-references yield the garbage
defaults. -/
def SharedAllocationRecord.get_record (st : AllocState) (alloc_ptr : Nat) :
    Except String Nat :=
  let head := if alloc_ptr ≠ 0 then get_header alloc_ptr else 0
  let record := ((st.headers head).getD garbageHeader).m_record
  if alloc_ptr = 0 ∨ ((st.records record).getD garbageRecord).m_alloc_ptr ≠ head then
    Except.error getRecordErrorMsg
  else
    Except.ok record

/-- `allocate_tracked` (source lines 169-182): zero size returns null
at once; otherwise the factory builds a record, its count is
incremented, and its user-data pointer is returned. -/
def SharedAllocationRecord.allocate_tracked (st : AllocState)
    (arg_space : SHMEMSpace) (arg_alloc_label : List Char)
    (arg_alloc_size : Nat) : Except String (Nat × AllocState) :=
  if arg_alloc_size = 0 then
    Except.ok (0, st)
  else do
    let (rid, st1) ← SharedAllocationRecord.allocateRecord st arg_space
      arg_alloc_label arg_alloc_size
    let st2 := RecordBase.increment st1 rid
    let r := (st2.records rid).getD garbageRecord
    Except.ok (r.data, st2)

/-- `deallocate_tracked` (source lines 184-192): a non-null pointer is
looked up via `get_record` and the record's count decremented; a null
pointer does nothing. -/
def SharedAllocationRecord.deallocate_tracked (st : AllocState)
    (arg_alloc_ptr : Nat) : Except String AllocState :=
  if arg_alloc_ptr ≠ 0 then do
    let rid ← SharedAllocationRecord.get_record st arg_alloc_ptr
    Except.ok (RecordBase.decrement st rid)
  else
    Except.ok st

/-- Modelled from the spec: `RecordBase::get_label` (declared outside
src) — reads the label stored in the allocation's header. -/
def recordLabel (st : AllocState) (rid : Nat) : List Char :=
  ((st.headers ((st.records rid).getD garbageRecord).m_alloc_ptr).getD
    garbageHeader).m_label

/-- `reallocate_tracked` (source lines 194-210): recovers the old
record, builds a brand-new record under the old record's space and
label, copies `min(old.size(), new.size())` bytes from the old
user-data region to the new one with the symmetric-to-symmetric
`DeepCopy` (`memcpy`), increments the new count, decrements the old,
and returns the new user-data pointer. -/
def SharedAllocationRecord.reallocate_tracked (st : AllocState)
    (arg_alloc_ptr : Nat) (arg_alloc_size : Nat) :
    Except String (Nat × AllocState) := do
  let r_old_id ← SharedAllocationRecord.get_record st arg_alloc_ptr
  let r_old := (st.records r_old_id).getD garbageRecord
  let (r_new_id, st1) ← SharedAllocationRecord.allocateRecord st r_old.m_space
    (recordLabel st r_old_id) arg_alloc_size
  let r_new := (st1.records r_new_id).getD garbageRecord
  let st2 := { st1 with
    mem := memcpyMem st1.mem r_new.data r_old.data (min r_old.size r_new.size) }
  let st3 := RecordBase.increment st2 r_new_id
  let st4 := RecordBase.decrement st3 r_old_id
  Except.ok (r_new.data, st4)

/-!  ## Theorems  -/

/-- C6: for every size > 0, `SHMEMSpace::allocate` aborts (fatal, no
partial path) whenever the configured allocation mode is not
`Symmetric`, and when the mode is `Symmetric` it returns the pointer
obtained from the symmetric-heap collaborator for that size. -/
theorem allocate_mode_dichotomy (sp : SHMEMSpace) (size res : Nat)
    (hsize : 0 < size) :
    (sp.allocation_mode ≠ Symmetric →
      SHMEMSpace.allocate sp size res =
        Except.error "SHMEMSpace only supports symmetric allocation policy.") ∧
    (sp.allocation_mode = Symmetric →
      SHMEMSpace.allocate sp size res = Except.ok res) := by
  have hsz : size ≠ 0 := Nat.pos_iff_ne_zero.mp hsize
  constructor <;> intro h <;> simp [SHMEMSpace.allocate, hsz, h]

/-- Witness for C6 at mode 1 (non-symmetric), size 5, heap result 7. -/
theorem allocate_mode_dichotomy_witness :
    0 < 5 ∧
    ((({ allocation_mode := 1 } : SHMEMSpace).allocation_mode ≠ Symmetric →
       SHMEMSpace.allocate { allocation_mode := 1 } 5 7 =
         Except.error "SHMEMSpace only supports symmetric allocation policy.") ∧
     (({ allocation_mode := 1 } : SHMEMSpace).allocation_mode = Symmetric →
       SHMEMSpace.allocate { allocation_mode := 1 } 5 7 = Except.ok 7)) :=
  ⟨by decide, allocate_mode_dichotomy { allocation_mode := 1 } 5 7 (by decide)⟩

/-- C7: `SHMEMSpace::allocate(0)` returns the null pointer for every
configured allocation mode — the mode check is never reached, so no
abort happens even for a non-symmetric mode. -/
theorem allocate_zero_returns_null (sp : SHMEMSpace) (res : Nat) :
    SHMEMSpace.allocate sp 0 res = Except.ok 0 := by
  simp [SHMEMSpace.allocate]

/-- C8: `allocate_tracked` with size 0 returns null immediately with
the allocator state (registry included) unchanged, and
`deallocate_tracked` on the null pointer is a no-op that leaves the
state unchanged (no lookup, no reference-count change). -/
theorem tracked_zero_size_and_null_dealloc (st : AllocState)
    (sp : SHMEMSpace) (label : List Char) :
    SharedAllocationRecord.allocate_tracked st sp label 0 = Except.ok (0, st) ∧
    SharedAllocationRecord.deallocate_tracked st 0 = Except.ok st := by
  constructor <;>
    simp [SharedAllocationRecord.allocate_tracked,
      SharedAllocationRecord.deallocate_tracked]

/-- C10: `get_record` on the null pointer raises the diagnostic error
(not a null record), hence `reallocate_tracked` on the null pointer
raises that error too (its `get_record` call is unguarded), while
`deallocate_tracked` tolerates null thanks to its own explicit check. -/
theorem null_pointer_behaviour (st : AllocState) (size : Nat) :
    SharedAllocationRecord.get_record st 0 = Except.error getRecordErrorMsg ∧
    SharedAllocationRecord.reallocate_tracked st 0 size =
      Except.error getRecordErrorMsg ∧
    SharedAllocationRecord.deallocate_tracked st 0 = Except.ok st := by
  refine ⟨?_, ?_, ?_⟩ <;>
    simp [SharedAllocationRecord.get_record,
      SharedAllocationRecord.reallocate_tracked,
      SharedAllocationRecord.deallocate_tracked,
      Bind.bind, Except.bind]

/-- C9: the cross-space DeepCopy operations between HostSpace and
SHMEMSpace (both directions) copy exactly n bytes byte-for-byte — the
i-th destination byte becomes the i-th source byte, and every address
outside the destination region is untouched — under the non-overlap
(memcpy) precondition. -/
theorem deepcopy_exact (m : Nat → Nat) (dst src n i a : Nat)
    (hdisj : dst + n ≤ src ∨ src + n ≤ dst) (hi : i < n)
    (ha : a < dst ∨ dst + n ≤ a) :
    DeepCopy_HostSpace_SHMEMSpace m dst src n (dst + i) = m (src + i) ∧
    DeepCopy_SHMEMSpace_HostSpace m dst src n (dst + i) = m (src + i) ∧
    DeepCopy_HostSpace_SHMEMSpace m dst src n a = m a ∧
    DeepCopy_SHMEMSpace_HostSpace m dst src n a = m a := by
  have hin : dst ≤ dst + i ∧ dst + i < dst + n := by omega
  have hout : ¬(dst ≤ a ∧ a < dst + n) := by omega
  refine ⟨?_, ?_, ?_, ?_⟩ <;>
    simp [DeepCopy_HostSpace_SHMEMSpace, DeepCopy_SHMEMSpace_HostSpace,
      memcpyMem, hin, hout]

/-- Witness for C9: identity-valued memory, dst 10, src 0, n 3, i 1,
outside address 20. -/
theorem deepcopy_exact_witness :
    (10 + 3 ≤ 0 ∨ 0 + 3 ≤ 10) ∧ 1 < 3 ∧ (20 < 10 ∨ 10 + 3 ≤ 20) ∧
    (DeepCopy_HostSpace_SHMEMSpace (fun x => x) 10 0 3 (10 + 1) = (fun x => x) (0 + 1) ∧
     DeepCopy_SHMEMSpace_HostSpace (fun x => x) 10 0 3 (10 + 1) = (fun x => x) (0 + 1) ∧
     DeepCopy_HostSpace_SHMEMSpace (fun x => x) 10 0 3 20 = (fun x => x) 20 ∧
     DeepCopy_SHMEMSpace_HostSpace (fun x => x) 10 0 3 20 = (fun x => x) 20) :=
  ⟨by decide, by decide, by decide,
   deepcopy_exact (fun x => x) 10 0 3 1 20 (by decide) (by decide) (by decide)⟩

/-- C3: for a non-null pointer, `get_record` computes the header
address at the fixed offset before the pointer, reads the
back-reference stored there, and whenever the recovered record's
stored allocation pointer differs from the computed header address it
raises the diagnostic error identifying the failing operation and
never returns a record. -/
theorem get_record_mismatch_raises (st : AllocState) (p : Nat) (hp : p ≠ 0)
    (hmis : ((st.records ((st.headers (get_header p)).getD garbageHeader).m_record).getD
        garbageRecord).m_alloc_ptr ≠ get_header p) :
    SharedAllocationRecord.get_record st p = Except.error getRecordErrorMsg ∧
    ∀ rid, SharedAllocationRecord.get_record st p ≠ Except.ok rid := by
  have h : SharedAllocationRecord.get_record st p = Except.error getRecordErrorMsg := by
    simp [SharedAllocationRecord.get_record, hp, hmis]
  exact ⟨h, fun rid hok => by simp [h] at hok⟩

/-- Witness for C3: in the pristine state, the pointer 200 was never
returned by the allocator; the garbage reads fail the back-reference
check and `get_record` reports the error. -/
theorem get_record_mismatch_raises_witness :
    (200 : Nat) ≠ 0 ∧
    ((initState.records ((initState.headers (get_header 200)).getD garbageHeader).m_record).getD
        garbageRecord).m_alloc_ptr ≠ get_header 200 ∧
    (SharedAllocationRecord.get_record initState 200 = Except.error getRecordErrorMsg ∧
     ∀ rid, SharedAllocationRecord.get_record initState 200 ≠ Except.ok rid) :=
  ⟨by decide, by decide,
   get_record_mismatch_raises initState 200 (by decide) (by decide)⟩

/-- C4: when the space's allocate yields the null pointer for the
(always nonzero) requested block size, the record factory fails with
the allocation-failure condition and never returns a record built on a
null block pointer. -/
theorem ctor_fails_on_null_allocation (st : AllocState) (sp : SHMEMSpace)
    (label : List Char) (size : Nat) (hmode : sp.allocation_mode = Symmetric) :
    SHMEMSpace.allocate sp (sizeofSharedAllocationHeader + size) 0 = Except.ok 0 ∧
    SharedAllocationRecord.ctorWith st sp label size 0 =
      Except.error allocationFailureMsg ∧
    ∀ rid st', SharedAllocationRecord.ctorWith st sp label size 0 ≠
      Except.ok (rid, st') := by
  have hblk : sizeofSharedAllocationHeader + size ≠ 0 := by
    unfold sizeofSharedAllocationHeader; omega
  have halloc : SHMEMSpace.allocate sp (sizeofSharedAllocationHeader + size) 0 =
      Except.ok 0 := by
    simp [SHMEMSpace.allocate, hblk, hmode]
  have hfail : SharedAllocationRecord.ctorWith st sp label size 0 =
      Except.error allocationFailureMsg := by
    simp [SharedAllocationRecord.ctorWith, halloc, RecordBase.ctor,
      Bind.bind, Except.bind]
  exact ⟨halloc, hfail, fun rid st' hok => by simp [hfail] at hok⟩

/-- Witness for C4 in the pristine state with the default space, label
"x", user size 5. -/
theorem ctor_fails_on_null_allocation_witness :
    ({} : SHMEMSpace).allocation_mode = Symmetric ∧
    (SHMEMSpace.allocate {} (sizeofSharedAllocationHeader + 5) 0 = Except.ok 0 ∧
     SharedAllocationRecord.ctorWith initState {} ['x'] 5 0 =
       Except.error allocationFailureMsg ∧
     ∀ rid st', SharedAllocationRecord.ctorWith initState {} ['x'] 5 0 ≠
       Except.ok (rid, st')) :=
  ⟨rfl, ctor_fails_on_null_allocation initState {} ['x'] 5 rfl⟩

/-- C5: with profiling active, allocating 4 bytes labelled "buf" and
releasing them emits a `deallocateData` event before the block is
passed to `shmem_free` — but the event's label is the `m_label` of the
destructor's freshly default-constructed local header (modelled by
`garbageHeader`, the uninitialized buffer), not the record's stored
label "buf": the destructor never copies the allocation's header into
the local one.  The address and size carried by the event, and the
full-block `shmem_free` call, match the claim. -/
theorem dtor_emits_default_header_label :
    ((SharedAllocationRecord.allocate_tracked initState {} ['b','u','f'] 4).map
      (fun r => recordLabel r.2 0)) = Except.ok ['b','u','f'] ∧
    (((SharedAllocationRecord.allocate_tracked initState {} ['b','u','f'] 4).bind
        (fun r => SharedAllocationRecord.deallocate_tracked r.2 r.1)).map
      (fun st => st.events)) =
      Except.ok [ProfEvent.allocEvt SHMEMSpace.spaceName ['b','u','f'] 129 4,
                 ProfEvent.deallocEvt SHMEMSpace.spaceName garbageHeader.m_label 129 4] ∧
    garbageHeader.m_label ≠ ['b','u','f'] ∧
    (((SharedAllocationRecord.allocate_tracked initState {} ['b','u','f'] 4).bind
        (fun r => SharedAllocationRecord.deallocate_tracked r.2 r.1)).map
      (fun st => st.freed)) = Except.ok [1] :=
  ⟨rfl, rfl, by decide, rfl⟩

/-- C1: for every size > 0 and every label (under the supported
`Symmetric` mode), `allocate_tracked` returns a non-null pointer p
such that `get_record p` recovers exactly the record created by the
call, that record's `size()` is the requested user size (header
overhead excluded), and the label stored in the header is the given
label truncated to `maximum_label_length`. -/
theorem allocate_tracked_roundtrip (st : AllocState) (sp : SHMEMSpace)
    (label : List Char) (size : Nat)
    (hmode : sp.allocation_mode = Symmetric) (hsize : 0 < size) :
    ∃ p st', SharedAllocationRecord.allocate_tracked st sp label size =
        Except.ok (p, st') ∧
      p ≠ 0 ∧
      SharedAllocationRecord.get_record st' p = Except.ok st.nextRec ∧
      ∃ r, st'.records st.nextRec = some r ∧
        r.size = size ∧
        ((st'.headers r.m_alloc_ptr).getD garbageHeader).m_label =
          label.take maximum_label_length := by
  have hsz : ¬ size = 0 := by omega
  have hblk : ¬ (sizeofSharedAllocationHeader + size = 0) := by
    unfold sizeofSharedAllocationHeader; omega
  have hptr : ¬ (st.nextAddr + 1 = 0) := by omega
  by_cases hprof : st.profiling <;>
    simp [SharedAllocationRecord.allocate_tracked,
      SharedAllocationRecord.allocateRecord, shmem_malloc,
      SharedAllocationRecord.ctorWith, SHMEMSpace.allocate, RecordBase.ctor,
      hmode, hsz, hblk, hptr, hprof, Bind.bind, Except.bind,
      RecordBase.increment, Record.data] <;>
  refine ⟨_, _, ⟨rfl, rfl⟩, ?_, ?_, ?_⟩ <;>
    simp [SharedAllocationRecord.get_record, get_header, Record.size,
      Nat.add_sub_cancel]

/-- Witness for C1 in the pristine state, label "buf", size 4. -/
theorem allocate_tracked_roundtrip_witness :
    ({} : SHMEMSpace).allocation_mode = Symmetric ∧ 0 < 4 ∧
    (∃ p st',
      SharedAllocationRecord.allocate_tracked initState {} ['b','u','f'] 4 =
        Except.ok (p, st') ∧
      p ≠ 0 ∧
      SharedAllocationRecord.get_record st' p = Except.ok initState.nextRec ∧
      ∃ r, st'.records initState.nextRec = some r ∧
        r.size = 4 ∧
        ((st'.headers r.m_alloc_ptr).getD garbageHeader).m_label =
          (['b','u','f'] : List Char).take maximum_label_length) :=
  ⟨rfl, by decide,
   allocate_tracked_roundtrip initState {} ['b','u','f'] 4 rfl (by decide)⟩

/-- Looking inside the destination region of a `memcpy` yields the
corresponding source byte of the pre-copy memory. -/
lemma memcpyMem_in (m : Nat → Nat) (dst src n i : Nat) (hi : i < n) :
    memcpyMem m dst src n (dst + i) = m (src + i) := by
  have h : dst ≤ dst + i ∧ dst + i < dst + n :=
    ⟨Nat.le_add_right _ _, Nat.add_lt_add_left hi _⟩
  simp [memcpyMem, h, Nat.add_sub_cancel_left]

/-- C2: reallocating a live tracked pointer p1 builds a brand-new
record under the old record's space and label, whose reference count
is 1, whose `size()` is the new size, and whose user-data pointer is
returned; the first `min(old_size, new_size)` bytes at the returned
pointer equal the bytes previously stored at p1; and the old record's
count is decremented, releasing the record when it drops to zero.  The
hypotheses say that p1 is a pointer this allocator handed out: its
lookup succeeds, its record is live with its header immediately below
p1, record ids and block addresses already in use lie below the fresh
counters, and the stored label respects the header capacity. -/
theorem reallocate_tracked_spec (st : AllocState) (p1 newSize : Nat)
    (ridOld : Nat) (rOld : Record)
    (h1 : SharedAllocationRecord.get_record st p1 = Except.ok ridOld)
    (h2 : st.records ridOld = some rOld)
    (h3 : rOld.m_space.allocation_mode = Symmetric)
    (h4 : ridOld < st.nextRec)
    (h5 : rOld.m_alloc_ptr ≤ st.nextAddr)
    (h6 : rOld.m_alloc_ptr + sizeofSharedAllocationHeader = p1)
    (h7 : (recordLabel st ridOld).length ≤ maximum_label_length) :
    ∃ p2 st',
      SharedAllocationRecord.reallocate_tracked st p1 newSize =
        Except.ok (p2, st') ∧
      (∃ rNew, st'.records st.nextRec = some rNew ∧
        rNew.m_space = rOld.m_space ∧
        rNew.m_count = 1 ∧
        rNew.size = newSize ∧
        p2 = rNew.data ∧
        ((st'.headers rNew.m_alloc_ptr).getD garbageHeader).m_label =
          recordLabel st ridOld) ∧
      (∀ i, i < min rOld.size newSize → st'.mem (p2 + i) = st.mem (p1 + i)) ∧
      (rOld.m_count = 1 → st'.records ridOld = none) ∧
      (rOld.m_count ≠ 1 → st'.records ridOld =
        some { rOld with m_count := rOld.m_count - 1 }) := by
  have hblk : ¬ (sizeofSharedAllocationHeader + newSize = 0) := by
    unfold sizeofSharedAllocationHeader; omega
  have hptr : ¬ (st.nextAddr + 1 = 0) := by omega
  have hne : ¬ (ridOld = st.nextRec) := by omega
  have hne2 : ¬ (st.nextRec = ridOld) := by omega
  have haddr : ¬ (st.nextAddr + 1 = rOld.m_alloc_ptr) := by omega
  subst h6
  by_cases hcnt : rOld.m_count = 1 <;> by_cases hprof : st.profiling <;>
    simp [SharedAllocationRecord.reallocate_tracked, h1, h2, h3, hblk, hptr,
      hne, hne2, haddr, hcnt, hprof, Bind.bind, Except.bind,
      SharedAllocationRecord.allocateRecord, shmem_malloc,
      SharedAllocationRecord.ctorWith, SHMEMSpace.allocate, RecordBase.ctor,
      RecordBase.increment, RecordBase.decrement, SharedAllocationRecord.dtor,
      Record.data, Record.size, Nat.add_sub_cancel_left, Nat.add_sub_cancel]
  all_goals refine ⟨_, _, ⟨rfl, rfl⟩, ?_, ?_, ?_⟩
  all_goals first
    | (intro i hi1 hi2
       exact memcpyMem_in st.mem _ _ _ i (by omega))
    | simp [hne2, haddr, List.take_of_length_le h7]

/-- The state after allocating 2 bytes labelled "b" in the pristine
state, used to exercise `reallocate_tracked`. -/
def reallocWitnessState : AllocState :=
  ((SharedAllocationRecord.allocate_tracked initState {} ['b'] 2).toOption.getD
    (0, initState)).2

/-- The live record in `reallocWitnessState`. -/
def witRecOld : Record :=
  { m_space := {}, m_alloc_ptr := 1, m_alloc_size := 130, m_count := 1 }

/-- Witness for C2: reallocating the 2-byte allocation at pointer 129
to 5 bytes. -/
theorem reallocate_tracked_spec_witness :
    SharedAllocationRecord.get_record reallocWitnessState 129 = Except.ok 0 ∧
    reallocWitnessState.records 0 = some witRecOld ∧
    witRecOld.m_space.allocation_mode = Symmetric ∧
    0 < reallocWitnessState.nextRec ∧
    witRecOld.m_alloc_ptr ≤ reallocWitnessState.nextAddr ∧
    witRecOld.m_alloc_ptr + sizeofSharedAllocationHeader = 129 ∧
    (recordLabel reallocWitnessState 0).length ≤ maximum_label_length ∧
    (∃ p2 st',
      SharedAllocationRecord.reallocate_tracked reallocWitnessState 129 5 =
        Except.ok (p2, st') ∧
      (∃ rNew, st'.records reallocWitnessState.nextRec = some rNew ∧
        rNew.m_space = witRecOld.m_space ∧
        rNew.m_count = 1 ∧
        rNew.size = 5 ∧
        p2 = rNew.data ∧
        ((st'.headers rNew.m_alloc_ptr).getD garbageHeader).m_label =
          recordLabel reallocWitnessState 0) ∧
      (∀ i, i < min witRecOld.size 5 →
        st'.mem (p2 + i) = reallocWitnessState.mem (129 + i)) ∧
      (witRecOld.m_count = 1 → st'.records 0 = none) ∧
      (witRecOld.m_count ≠ 1 → st'.records 0 =
        some { witRecOld with m_count := witRecOld.m_count - 1 })) :=
  ⟨rfl, rfl, rfl, by decide, by decide, by decide, by decide,
   reallocate_tracked_spec reallocWitnessState 129 5 0 witRecOld rfl rfl rfl
     (by decide) (by decide) (by decide) (by decide)⟩

end KokkosSHMEM
